import Mathlib

/-!
# Verification of the UDX desktop companion application

A shallow embedding, in Lean 4, of the main-process subsystems of the UDX
Electron application: the window registry (`src/main/core/windowManager.ts`),
the custom-protocol state (`src/main/services/protocoles.ts`), the startup
health checks (`src/main/services/serverCon.ts`), the IPC handlers
(`src/main/core/ipcHandlers.ts` together with `src/main/core/globalState.ts`),
the settings store (`src/main/core/appData.ts`), and the renderer language
lookup (`src/renderer/src/utils/i18n.ts`).

Stateful TypeScript is modelled by explicit state passing; code that can
throw is modelled with `Except`, and a `try/catch` block is modelled by
matching on the `Except` result.  Externally visible side effects (logging,
store writes, window closes, relaunch/exit, shell calls) are recorded in an
explicit event trace so that ordering properties can be stated.
-/

namespace UDX

/-! ## Window manager (`src/main/core/windowManager.ts`)

`UDXWindows` is a `Map<string, UDXWindowMetadata>` keyed by generated window
ids; JavaScript `Map` iteration follows insertion order, and entries are
inserted when a window is created, so the map is modelled as a list of
metadata entries in creation order.  The native `BrowserWindow` handle is
opaque to the registry logic; the only thing the registry code observes of a
native call is whether it throws, so each mutator takes a `fails` flag
standing for the behaviour of the underlying native window operation. -/

namespace WindowManager

/-- `UDXPossibleWindows` from `src/main/types/index.ts`. -/
inductive WinType where
  | main : WinType
  | login : WinType
deriving DecidableEq

/-- The string a window type compares equal to when used as a lookup
identifier (TypeScript compares `metadata.type === identifier`). -/
def WinType.str : WinType → String
  | WinType.main => "main"
  | WinType.login => "login"

/-- `UDXWindowMetadata` (without the opaque native handle): id, type,
creation timestamp and the three lifecycle flags. -/
structure WinMeta where
  id : String
  wtype : WinType
  createdAt : Nat
  isMinimized : Bool
  isMaximized : Bool
  isFocused : Bool
deriving DecidableEq

/-- The registry: `UDXWindows` values in insertion (= creation) order. -/
abbrev Registry := List WinMeta

/-- `getWindowMetadata`: exact id match first (`UDXWindows.has/get`), then a
linear scan of the values returning the first entry whose type equals the
identifier. -/
def getWindowMetadata (reg : Registry) (ident : String) : Option WinMeta :=
  match reg.find? (fun m => m.id == ident) with
  | some m => some m
  | none => reg.find? (fun m => m.wtype.str == ident)

/-- A native `BrowserWindow` method call: throws iff `fails` is set. -/
def nativeCall (fails : Bool) : Except String Unit :=
  if fails then Except.error "native window operation failed" else Except.ok ()

/-- Models a `catch` block that logs and returns `false`
(the uniform failure semantics of the registry mutators). -/
def catchReturnFalse (x : Except String Bool) : Except String Bool :=
  match x with
  | Except.ok b => Except.ok b
  | Except.error _ => Except.ok false

/-- Body of `closeWindow` inside its `try`: missing metadata logs a warning
and returns `false`; otherwise `metadata.window.close()` runs (and may
throw), then the function returns `true`. -/
def closeWindowBody (reg : Registry) (fails : Bool) (ident : String) : Except String Bool :=
  match getWindowMetadata reg ident with
  | none => Except.ok false
  | some _ =>
    match nativeCall fails with
    | Except.ok _ => Except.ok true
    | Except.error e => Except.error e

/-- `closeWindow` = body wrapped in `try/catch`. -/
def closeWindow (reg : Registry) (fails : Bool) (ident : String) : Except String Bool :=
  catchReturnFalse (closeWindowBody reg fails ident)

/-- Body of `minimizeWindow`. -/
def minimizeWindowBody (reg : Registry) (fails : Bool) (ident : String) : Except String Bool :=
  match getWindowMetadata reg ident with
  | none => Except.ok false
  | some _ =>
    match nativeCall fails with
    | Except.ok _ => Except.ok true
    | Except.error e => Except.error e

/-- `minimizeWindow`. -/
def minimizeWindow (reg : Registry) (fails : Bool) (ident : String) : Except String Bool :=
  catchReturnFalse (minimizeWindowBody reg fails ident)

/-- Body of `maximizeWindow`: toggles between `unmaximize()` and
`maximize()` depending on the recorded `isMaximized` flag. -/
def maximizeWindowBody (reg : Registry) (fails : Bool) (ident : String) : Except String Bool :=
  match getWindowMetadata reg ident with
  | none => Except.ok false
  | some m =>
    if m.isMaximized then
      match nativeCall fails with
      | Except.ok _ => Except.ok true
      | Except.error e => Except.error e
    else
      match nativeCall fails with
      | Except.ok _ => Except.ok true
      | Except.error e => Except.error e

/-- `maximizeWindow`. -/
def maximizeWindow (reg : Registry) (fails : Bool) (ident : String) : Except String Bool :=
  catchReturnFalse (maximizeWindowBody reg fails ident)

/-- Body of `restoreWindow`. -/
def restoreWindowBody (reg : Registry) (fails : Bool) (ident : String) : Except String Bool :=
  match getWindowMetadata reg ident with
  | none => Except.ok false
  | some _ =>
    match nativeCall fails with
    | Except.ok _ => Except.ok true
    | Except.error e => Except.error e

/-- `restoreWindow`. -/
def restoreWindow (reg : Registry) (fails : Bool) (ident : String) : Except String Bool :=
  catchReturnFalse (restoreWindowBody reg fails ident)

/-- Body of `focusWindow`: restores first when the window is minimized, then
calls `focus()`; either native call may throw. -/
def focusWindowBody (reg : Registry) (fails : Bool) (ident : String) : Except String Bool :=
  match getWindowMetadata reg ident with
  | none => Except.ok false
  | some m =>
    if m.isMinimized then
      match nativeCall fails with
      | Except.ok _ =>
        match nativeCall fails with
        | Except.ok _ => Except.ok true
        | Except.error e => Except.error e
      | Except.error e => Except.error e
    else
      match nativeCall fails with
      | Except.ok _ => Except.ok true
      | Except.error e => Except.error e

/-- `focusWindow`. -/
def focusWindow (reg : Registry) (fails : Bool) (ident : String) : Except String Bool :=
  catchReturnFalse (focusWindowBody reg fails ident)

/-- Body of `showWindow`. -/
def showWindowBody (reg : Registry) (fails : Bool) (ident : String) : Except String Bool :=
  match getWindowMetadata reg ident with
  | none => Except.ok false
  | some _ =>
    match nativeCall fails with
    | Except.ok _ => Except.ok true
    | Except.error e => Except.error e

/-- `showWindow`. -/
def showWindow (reg : Registry) (fails : Bool) (ident : String) : Except String Bool :=
  catchReturnFalse (showWindowBody reg fails ident)

/-- Body of `hideWindow`. -/
def hideWindowBody (reg : Registry) (fails : Bool) (ident : String) : Except String Bool :=
  match getWindowMetadata reg ident with
  | none => Except.ok false
  | some _ =>
    match nativeCall fails with
    | Except.ok _ => Except.ok true
    | Except.error e => Except.error e

/-- `hideWindow`. -/
def hideWindow (reg : Registry) (fails : Bool) (ident : String) : Except String Bool :=
  catchReturnFalse (hideWindowBody reg fails ident)

/-- Body of `refreshWindowContent` (`window.webContents.reload()`). -/
def refreshWindowContentBody (reg : Registry) (fails : Bool) (ident : String) :
    Except String Bool :=
  match getWindowMetadata reg ident with
  | none => Except.ok false
  | some _ =>
    match nativeCall fails with
    | Except.ok _ => Except.ok true
    | Except.error e => Except.error e

/-- `refreshWindowContent`. -/
def refreshWindowContent (reg : Registry) (fails : Bool) (ident : String) : Except String Bool :=
  catchReturnFalse (refreshWindowContentBody reg fails ident)

/-- `createWindow`: constructs the window and loads its content (the
`loadURL`/`loadFile` await may fail; `loadOk` stands for its outcome) before
inserting the metadata into the registry; its `catch` wraps and RETHROWS the
error instead of returning a sentinel. -/
def createWindow (reg : Registry) (loadOk : Bool) (meta : WinMeta) :
    Except String (String × Registry) :=
  if loadOk then Except.ok (meta.id, reg ++ [meta])
  else Except.error "Failed to create window: load failed"

end WindowManager

/-! ## Protocol registration (`src/main/services/protocoles.ts`) -/

namespace Protocols

/-- `ProtocolState` from `src/main/types/index.ts`, plus a flag recording
whether the macOS `will-finish-launching` listener has been installed. -/
structure PState where
  isRegistered : Bool
  scheme : String
  macListenerAdded : Bool
deriving DecidableEq

/-- The fixed scheme string `PROTOCOL_SCHEME`. -/
def PROTOCOL_SCHEME : String := "uxondynamics"

/-- The module-level initial `protocolState`. -/
def initialPState : PState :=
  { isRegistered := false, scheme := PROTOCOL_SCHEME, macListenerAdded := false }

/-- Environment of a registration attempt: whether the process runs from the
default (interpreted) entry point, the argv length, the result of
`app.setAsDefaultProtocolClient`, and the platform. -/
structure ProtoEnv where
  defaultApp : Bool
  argvLen : Nat
  setDefaultOk : Bool
  isMacOS : Bool

/-- `registerDevelopmentProtocol`: needs `process.argv.length >= 2`; sets the
flag on success and throws on failure (the mutation to `false` performed by
the caller is not undone by the throw). -/
def registerDevelopmentProtocol (env : ProtoEnv) (st : PState) : PState × Bool :=
  if 2 ≤ env.argvLen then
    if env.setDefaultOk then ({ st with isRegistered := true }, true)
    else (st, false)
  else (st, false)

/-- `registerProductionProtocol`. -/
def registerProductionProtocol (env : ProtoEnv) (st : PState) : PState × Bool :=
  if env.setDefaultOk then ({ st with isRegistered := true }, true)
  else (st, false)

/-- `registerMacOSProtocol` only installs a `will-finish-launching` listener;
the flag itself is not touched until the event fires. -/
def registerMacOSProtocol (st : PState) : PState :=
  { st with macListenerAdded := true }

/-- The deferred macOS listener body, run when `will-finish-launching`
fires: sets the flag on success, logs a warning (no state change) on
failure, and never clears the flag. -/
def fireWillFinishLaunching (env : ProtoEnv) (st : PState) : PState :=
  if st.macListenerAdded then
    if env.setDefaultOk then { st with isRegistered := true } else st
  else st

/-- `initializeProtocols`: resets `protocolState.isRegistered` to `false`
("Reset state before registration"), dispatches on `process.defaultApp`, and
only on success goes on to the macOS-specific step.  The boolean result is
`true` when no exception was thrown. -/
def initializeProtocols (env : ProtoEnv) (st : PState) : PState × Bool :=
  let st0 : PState := { st with isRegistered := false }
  let attempt :=
    if env.defaultApp then registerDevelopmentProtocol env st0
    else registerProductionProtocol env st0
  match attempt with
  | (st1, false) => (st1, false)
  | (st1, true) =>
    if env.isMacOS then (registerMacOSProtocol st1, true) else (st1, true)

/-- `isProtocolRegistered` (read-only). -/
def isProtocolRegistered (st : PState) : Bool := st.isRegistered

/-- `getProtocolScheme` (read-only). -/
def getProtocolScheme (st : PState) : String := st.scheme

/-- `handleProtocolUrl` parses the URL (and may throw on a malformed one) but
never touches `protocolState`; only its state effect matters here. -/
def handleProtocolUrl (_url : String) (st : PState) : PState := st

/-- The operations that can run against the protocol state after startup. -/
inductive POp where
  | init (env : ProtoEnv) : POp
  | isReg : POp
  | getScheme : POp
  | handleUrl (url : String) : POp
  | fireMacLaunch (env : ProtoEnv) : POp

/-- One step of the protocol-state machine. -/
def pStep (st : PState) : POp → PState
  | POp.init env => (initializeProtocols env st).1
  | POp.isReg => st
  | POp.getScheme => st
  | POp.handleUrl u => handleProtocolUrl u st
  | POp.fireMacLaunch env => fireWillFinishLaunching env st

/-- Run a sequence of protocol operations. -/
def pRun (st : PState) : List POp → PState
  | [] => st
  | op :: ops => pRun (pStep st op) ops

/-- `True` when the operation is an `initializeProtocols` call. -/
def POp.isInit : POp → Bool
  | POp.init _ => true
  | _ => false

end Protocols

/-! ## Startup health checks (`src/main/services/serverCon.ts`) -/

namespace ServerCon

/-- Outcome of one `GET /api/...-health` call as the checks observe it:
a successful response with `success: true`, a successful response with
`success: false`, or a rejected request (network error / timeout). -/
inductive HealthOutcome where
  | healthy : HealthOutcome
  | unhealthy : HealthOutcome
  | netError : HealthOutcome
deriving DecidableEq

/-- The log lines the health-check code emits. -/
inductive HLog where
  | info (m : String) : HLog
  | warn (m : String) : HLog
  | error (m : String) : HLog
deriving DecidableEq

/-- `isUDXServerRunning`: returns the boolean when the request resolves,
rethrows (after logging) when it rejects. -/
def isUDXServerRunning (o : HealthOutcome) : Except String Bool × List HLog :=
  match o with
  | HealthOutcome.healthy =>
    (Except.ok true, [HLog.info "UDX server is running and healthy."])
  | HealthOutcome.unhealthy =>
    (Except.ok false, [HLog.warn "UDX server health check failed"])
  | HealthOutcome.netError =>
    (Except.error "Failed to check UDX server status",
     [HLog.error "Failed to check UDX server status"])

/-- `isUDXDatabaseRunning`. -/
def isUDXDatabaseRunning (o : HealthOutcome) : Except String Bool × List HLog :=
  match o with
  | HealthOutcome.healthy =>
    (Except.ok true, [HLog.info "UDX database is running and healthy."])
  | HealthOutcome.unhealthy =>
    (Except.ok false, [HLog.warn "UDX database health check failed"])
  | HealthOutcome.netError =>
    (Except.error "Failed to check UDX database status",
     [HLog.error "Failed to check UDX database status"])

/-- Result of `performHealthChecks`: either startup continues, or
`process.exit(1)` was reached. -/
inductive HCResult where
  | continued : HCResult
  | exited (code : Nat) : HCResult
deriving DecidableEq

/-- `performHealthChecks`: both checks are started together
(`Promise.all`), so both run regardless of the other's outcome; their
results are then inspected, a failure list is built (logging which check
failed), and any failure — or any rejection — lands in the `catch` block
which calls `process.exit(1)`.  Returns the result and the emitted log. -/
def performHealthChecks (srv db : HealthOutcome) : HCResult × List HLog :=
  let intro := [HLog.info "Performing system health checks..."]
  let (srvRes, srvLog) := isUDXServerRunning srv
  let (dbRes, dbLog) := isUDXDatabaseRunning db
  let ran := intro ++ srvLog ++ dbLog
  match srvRes, dbRes with
  | Except.ok serverIsAlive, Except.ok dbIsAlive =>
    let srvVerdict :=
      if serverIsAlive then [HLog.info "SERVER CHECK PASSED"]
      else [HLog.error "SERVER CHECK FAILED"]
    let dbVerdict :=
      if dbIsAlive then [HLog.info "DATABASE CHECK PASSED"]
      else [HLog.error "DATABASE CHECK FAILED"]
    let afterVerdicts := ran ++ srvVerdict ++ dbVerdict
    if serverIsAlive && dbIsAlive then
      (HCResult.continued, afterVerdicts ++ [HLog.info "All health checks passed :: CONTINUING"])
    else
      (HCResult.exited 1,
       afterVerdicts ++ [HLog.error "Health checks failed :: ABORTING APPLICATION STARTUP",
                         HLog.error "SYSTEM CHECKS FAILED :: ABORTING"])
  | _, _ =>
    (HCResult.exited 1, ran ++ [HLog.error "SYSTEM CHECKS FAILED :: ABORTING"])

end ServerCon

/-! ## Renderer language lookup (`src/renderer/src/utils/i18n.ts`) and the
settings document shape written by the main process
(`createDefaultSettings` in `src/main/core/appData.ts`). -/

namespace I18n

/-- A JSON-like value as the renderer sees a parsed settings document. -/
inductive JVal where
  | jstr (s : String) : JVal
  | jbool (b : Bool) : JVal
  | jobj (fields : List (String × JVal)) : JVal

/-- Property access on a JSON object (returns `none` — i.e. `undefined` —
for a missing key or a non-object receiver). -/
def lookupField : List (String × JVal) → String → Option JVal
  | [], _ => none
  | (k, v) :: rest, key => if k == key then some v else lookupField rest key

/-- The top-level fields of a settings document produced by the settings
store's own writer (`createDefaultSettings` in `src/main/core/appData.ts`):
the user-preferences section is keyed `udx` and the options section
`appOption`.  Field values are generalized; the writer itself uses
`lang = "en"` and all-`true` flags. -/
def storeWriterFields (lang : String) (joinOrg createOrg notif sfx streamer dark : Bool) :
    List (String × JVal) :=
  [("udx", JVal.jobj
      [("lang", JVal.jstr lang),
       ("firstTimeJoinOrg", JVal.jbool joinOrg),
       ("firstTimeCreateOrg", JVal.jbool createOrg)]),
   ("appOption", JVal.jobj
      [("notification", JVal.jbool notif),
       ("soundFx", JVal.jbool sfx),
       ("streamerMode", JVal.jbool streamer),
       ("darkMode", JVal.jbool dark)])]

/-- A whole settings document as written by the store. -/
def storeWriterDoc (lang : String) (joinOrg createOrg notif sfx streamer dark : Bool) : JVal :=
  JVal.jobj (storeWriterFields lang joinOrg createOrg notif sfx streamer dark)

/-- `getSavedLanguage`: reads the settings via IPC and tests
`settings && settings.udxSettings && settings.udxSettings.lang`
(JavaScript truthiness: the language must be a non-empty string), returning
the saved language only then, and the fallback `"en"` otherwise. -/
def getSavedLanguage (settings : Option JVal) : String :=
  match settings with
  | some (JVal.jobj fields) =>
    match lookupField fields "udxSettings" with
    | some (JVal.jobj uf) =>
      match lookupField uf "lang" with
      | some (JVal.jstr l) => if l ≠ "" then l else "en"
      | _ => "en"
    | _ => "en"
  | _ => "en"

end I18n

/-! ## IPC handlers (`src/main/core/ipcHandlers.ts`) and the global state
(`src/main/core/globalState.ts`)

The main-process state visible to the IPC handlers: the encrypted key-value
store (an association of keys to string values), the window registry, the
global-state module's mutable variables, and an event trace recording the
externally observable actions in the order they are performed. -/

namespace IpcHandlers

open WindowManager

/-- Observable events of the main process, in execution order. -/
inductive Ev where
  | logInfo (m : String) : Ev
  | logWarn (m : String) : Ev
  | logError (m : String) : Ev
  | storeDelete (k : String) : Ev
  | storeSet (k v : String) : Ev
  | windowClosed (id : String) : Ev
  | resetGlobal : Ev
  | relaunch : Ev
  | exitApp (n : Nat) : Ev
  | shellOpen (u : String) : Ev
  | registerChannel (c : String) : Ev
deriving DecidableEq, BEq

/-- Main-process state.  `handlers` is the set of channels with an
installed `ipcMain.handle` handler (Electron keeps one handler per channel
and throws on a duplicate registration). -/
structure MState where
  store : List (String × String)
  registry : Registry
  storeHandle : Bool
  appDataPath : Option String
  ipcHandlersRegistered : Bool
  isQuitting : Bool
  trace : List Ev
  handlers : List String

/-- `store.get(k)` on the key-value store. -/
def storeGet (store : List (String × String)) (k : String) : Option String :=
  (store.find? (fun p => p.1 == k)).map (fun p => p.2)

/-- `store.set(k, v)`: replaces any existing binding for `k`. -/
def storeSetKV (k v : String) (store : List (String × String)) : List (String × String) :=
  (k, v) :: store.filter (fun p => !(p.1 == k))

/-- `store.delete(k)`. -/
def storeDeleteKV (k : String) (store : List (String × String)) : List (String × String) :=
  store.filter (fun p => !(p.1 == k))

/-- `resetGlobalState` from `src/main/core/globalState.ts`: nulls the store
handle and app-data path and clears both flags. -/
def resetGlobalState (st : MState) : MState :=
  { st with storeHandle := false, appDataPath := none,
            ipcHandlersRegistered := false, isQuitting := false,
            trace := st.trace ++ [Ev.resetGlobal] }

/-- `closeWindow` as invoked on a registered id with a normally-behaving
native window: the `closed` listener installed by `setupWindowListeners`
removes the entry from the registry. -/
def closeWindowS (st : MState) (ident : String) : Bool × MState :=
  match getWindowMetadata st.registry ident with
  | none =>
    (false, { st with trace := st.trace ++ [Ev.logWarn ("Window " ++ ident ++ " not found for closing")] })
  | some m =>
    (true, { st with registry := st.registry.eraseP (fun x => x.id == m.id),
                     trace := st.trace ++ [Ev.windowClosed m.id] })

/-- Loop of `closeAllWindows` over the snapshot of registry keys. -/
def closeAllWindowsGo (ids : List String) (st : MState) (closed : Nat) : Nat × MState :=
  match ids with
  | [] => (closed, st)
  | i :: rest =>
    let (ok, st') := closeWindowS st i
    closeAllWindowsGo rest st' (if ok then closed + 1 else closed)

/-- `closeAllWindows`: snapshots `UDXWindows.keys()` and closes each. -/
def closeAllWindows (st : MState) : Nat × MState :=
  closeAllWindowsGo (st.registry.map (fun m => m.id)) st 0

/-- The `clear-auth-token` handler (`authKey` is the configured
`VITE_AUTH_TOKEN` key name): deletes the token, closes all windows, resets
the global state, relaunches and exits — in that order — then returns
`true`. -/
def clearAuthToken (authKey : String) (st : MState) : Bool × MState :=
  let st1 : MState := { st with trace := st.trace ++ [Ev.logInfo "IPC clear-auth-token called"] }
  let st2 : MState := { st1 with store := storeDeleteKV authKey st1.store,
                                 trace := st1.trace ++ [Ev.storeDelete authKey] }
  let (_, st3) := closeAllWindows st2
  let st4 := resetGlobalState st3
  (true, { st4 with trace := st4.trace ++ [Ev.relaunch, Ev.exitApp 0] })

/-- The token argument of `set-auth-token` as it arrives over IPC: either a
string or some non-string value (`typeof token !== 'string'`). -/
inductive TokenArg where
  | strArg (s : String) : TokenArg
  | nonString : TokenArg

/-- The `set-auth-token` handler: an empty token, a non-string token, or a
token shorter than 10 characters raises `Invalid token`, which the `catch`
turns into `false` with the store untouched; otherwise the token is stored
under the auth-token key and the handler returns `true`. -/
def setAuthToken (authKey : String) (tok : TokenArg) (st : MState) : Bool × MState :=
  match tok with
  | TokenArg.nonString =>
    (false, { st with trace := st.trace ++ [Ev.logError "Error storing auth token: Invalid token"] })
  | TokenArg.strArg s =>
    if s = "" ∨ s.length < 10 then
      (false, { st with trace := st.trace ++ [Ev.logError "Error storing auth token: Invalid token"] })
    else
      (true, { st with store := storeSetKV authKey s st.store,
                       trace := st.trace ++ [Ev.storeSet authKey s] })

/-- A code point rejected by the handler's `unsafePattern`
(`U+0000`–`U+001F` and `U+007F`–`U+009F`). -/
def isUnsafeCodePoint (c : Char) : Bool :=
  c.toNat < 32 || (127 ≤ c.toNat && c.toNat ≤ 159)

/-- `unsafePattern.test(href)`. -/
def hasUnsafeChars (s : String) : Bool :=
  s.data.any isUnsafeCodePoint

/-- The URL argument of `open-external-link` (a structured-clone of a `URL`
object: a protocol and an href). -/
structure UrlArg where
  protocol : String
  href : String

/-- The `open-external-link` handler: only an `https:` URL whose href is
free of control characters reaches `shell.openExternal`; a control-bearing
href logs a warning and throws into the local `catch` (which logs an
error); a non-https URL falls through the `if` with no logging at all.
Nothing propagates to the sender. -/
def openExternalLink (u : UrlArg) : List Ev :=
  [Ev.logInfo ("IPC open-external-link called [ " ++ u.href ++ " ]")] ++
  (if u.protocol == "https:" then
    if hasUnsafeChars u.href then
      [Ev.logWarn "URL contains unsafe characters, aborting openExternal.",
       Ev.logError "Error opening external link: URL contains unsafe characters"]
    else
      [Ev.logInfo ("Opening external link: " ++ u.href), Ev.shellOpen u.href]
  else [])

/-- Kind of an IPC channel registration: `ipcMain.handle`
(request/response) or `ipcMain.on` (fire-and-forget listener). -/
inductive ChanKind where
  | invoke : ChanKind
  | send : ChanKind
deriving DecidableEq

/-- The IPC channel table with each channel's kind, in registration
order. -/
def channelTable : List (String × ChanKind) :=
  [("electron-store-get", ChanKind.invoke), ("electron-store-set", ChanKind.invoke),
   ("electron-store-delete", ChanKind.invoke), ("electron-store-clear", ChanKind.invoke),
   ("set-auth-token", ChanKind.invoke), ("get-auth-token", ChanKind.invoke),
   ("clear-auth-token", ChanKind.invoke), ("open-external-link", ChanKind.send),
   ("get-app-path", ChanKind.invoke), ("get-local-models-folder-path", ChanKind.invoke),
   ("check-model-exists", ChanKind.invoke), ("read-file", ChanKind.invoke),
   ("read-settings", ChanKind.invoke), ("write-settings", ChanKind.invoke),
   ("create-default-settings", ChanKind.invoke), ("write-log", ChanKind.invoke),
   ("restart-main-process", ChanKind.send), ("close-window", ChanKind.send),
   ("minimize-window", ChanKind.send), ("maximize-window", ChanKind.send)]

/-- The IPC channel names, in registration order. -/
def channelNames : List String :=
  ["electron-store-get", "electron-store-set", "electron-store-delete",
   "electron-store-clear", "set-auth-token", "get-auth-token",
   "clear-auth-token", "open-external-link", "get-app-path",
   "get-local-models-folder-path", "check-model-exists", "read-file",
   "read-settings", "write-settings", "create-default-settings", "write-log",
   "restart-main-process", "close-window", "minimize-window",
   "maximize-window"]

/-- The `ipcMain.handle` channels, in registration order: the handler-map
keys after one successful registration pass. -/
def invokeChannelNames : List String :=
  ["electron-store-get", "electron-store-set", "electron-store-delete",
   "electron-store-clear", "set-auth-token", "get-auth-token",
   "clear-auth-token", "get-app-path", "get-local-models-folder-path",
   "check-model-exists", "read-file", "read-settings", "write-settings",
   "create-default-settings", "write-log"]

/-- The `autoEraseAuthToken` constant from `globalState.ts`. -/
def autoEraseAuthToken : Bool := false

/-- One registration call.  `ipcMain.handle` throws
`Attempted to register a second handler for '<channel>'` when the channel
already has a handler; `ipcMain.on` is a plain `EventEmitter` subscription
and always succeeds.  Returns the new state and the thrown message, if
any. -/
def registerOne (st : MState) (c : String) (k : ChanKind) : MState × Option String :=
  match k with
  | ChanKind.invoke =>
    if st.handlers.contains c then
      (st, some ("Attempted to register a second handler for '" ++ c ++ "'"))
    else
      ({ st with handlers := st.handlers ++ [c],
                 trace := st.trace ++ [Ev.registerChannel c] }, none)
  | ChanKind.send =>
    ({ st with trace := st.trace ++ [Ev.registerChannel c] }, none)

/-- Sequential registration of the channel table; a throw aborts the
remaining registrations (the state reached so far persists, since the
exception propagates out of the registration sequence). -/
def goRegister : List (String × ChanKind) → MState → MState × Option String
  | [], st => (st, none)
  | (c, k) :: rest, st =>
    match registerOne st c k with
    | (st2, none) => goRegister rest st2
    | (st2, some e) => (st2, some e)

/-- Registration tail of `registerIpcHandlers` once a store handle exists:
the development-mode token erase (dead, since `autoEraseAuthToken` is the
constant `false`), then one `ipcMain.handle`/`ipcMain.on` call per table
entry, then `setIpcHandlersRegistered(true)`.  A thrown duplicate-handler
error skips the flag update and lands in the outer catch, which logs a
fatal error and rethrows; the Bool result records whether the call
completed without throwing. -/
def registerChannels (isDev : Bool) (authKey : String) (st : MState) : Bool × MState :=
  let st :=
    if isDev && autoEraseAuthToken then
      { st with store := storeDeleteKV authKey st.store,
                trace := st.trace ++ [Ev.storeDelete authKey] }
    else st
  match goRegister channelTable st with
  | (st2, none) => (true, { st2 with ipcHandlersRegistered := true })
  | (st2, some e) =>
    (false, { st2 with trace := st2.trace ++
        [Ev.logError ("registerIpcHandlers() - FATAL ERROR: " ++ e)] })

/-- `registerIpcHandlers`: lazily initializes the store (failing when the
encryption key is absent from the environment), then registers every
channel.  Note that it never reads `ipcHandlersRegistered`; it only sets it
at the end. -/
def registerIpcHandlers (isDev : Bool) (envKey : Option String) (authKey : String)
    (st : MState) : Bool × MState :=
  let st : MState := { st with trace := st.trace ++ [Ev.logInfo "Registering IPC handlers..."] }
  if st.storeHandle then
    registerChannels isDev authKey st
  else
    match envKey with
    | none =>
      (false, { st with trace := st.trace ++
          [Ev.logError "Failed to register IPC handlers: VITE_STORAGE_ENCRYPTION_KEY not found in environment variables. Aborting."] })
    | some _ =>
      registerChannels isDev authKey { st with storeHandle := true }

/-- Number of registrations of channel `c` recorded in a trace. -/
def countChannelReg (c : String) (t : List Ev) : Nat :=
  t.countP (fun e => e == Ev.registerChannel c)

/-- `True` on warning-log events. -/
def Ev.isWarn : Ev → Bool
  | Ev.logWarn _ => true
  | _ => false

/-- `True` on `shell.openExternal` events. -/
def Ev.isShellOpen : Ev → Bool
  | Ev.shellOpen _ => true
  | _ => false

end IpcHandlers

/-! ## Settings store (`src/main/core/appData.ts`)

`writeSettings`/`saveAppSettings` serialize the whole document with
`writeJson(path, settings, { spaces: 2 })` — i.e.
`JSON.stringify(settings, null, 2)` plus a final newline — and
`readSettings`/`loadAppSettings` parse the whole file back with `readJson`.
The file system is modelled as the optional content of the one settings
file; serialization and parsing are modelled concretely, character by
character, including JSON string escaping, so that the byte-for-byte
round-trip is a real statement about the file content. -/

namespace AppData

/-- `UDXSettings` (`src/main/types/index.ts`). -/
structure UDXSettings where
  lang : String
  firstTimeJoinOrg : Bool
  firstTimeCreateOrg : Bool
deriving DecidableEq

/-- `AppOptions`. -/
structure AppOptions where
  notifications : Bool
  soundFx : Bool
  streamerMode : Bool
  darkMode : Bool
deriving DecidableEq

/-- `AppSettings`. -/
structure AppSettings where
  udxSettings : UDXSettings
  appOptions : AppOptions
deriving DecidableEq

/-- Lower-case hex digit, as emitted by `JSON.stringify` in `\u00XX`
escapes. -/
def hexDigit (n : Nat) : Char :=
  if n < 10 then Char.ofNat (48 + n) else Char.ofNat (87 + n)

/-- Value of a hex digit accepted by `JSON.parse`. -/
def hexVal (c : Char) : Option Nat :=
  if 48 ≤ c.toNat ∧ c.toNat ≤ 57 then some (c.toNat - 48)
  else if 97 ≤ c.toNat ∧ c.toNat ≤ 102 then some (c.toNat - 87)
  else if 65 ≤ c.toNat ∧ c.toNat ≤ 70 then some (c.toNat - 55)
  else none

/-- `JSON.stringify` escaping of one character inside a string literal. -/
def jsonEscapeChar (c : Char) : List Char :=
  if c = '"' then ['\\', '"']
  else if c = '\\' then ['\\', '\\']
  else if c = '\x08' then ['\\', 'b']
  else if c = '\x09' then ['\\', 't']
  else if c = '\x0a' then ['\\', 'n']
  else if c = '\x0c' then ['\\', 'f']
  else if c = '\x0d' then ['\\', 'r']
  else if c.toNat < 32 then
    ['\\', 'u', '0', '0', hexDigit (c.toNat / 16), hexDigit (c.toNat % 16)]
  else [c]

/-- `JSON.stringify` escaping of a whole string body. -/
def jsonEscape : List Char → List Char
  | [] => []
  | c :: cs => jsonEscapeChar c ++ jsonEscape cs

/-- Prepend a decoded character to a string-body parse result. -/
def consChar (c : Char) : Option (List Char × List Char) → Option (List Char × List Char) :=
  Option.map (fun p => (c :: p.1, p.2))

/-- `JSON.parse` of a string-literal body (the opening quote already
consumed): decodes escapes up to the closing quote and returns the decoded
characters together with the rest of the input. -/
def parseStringBody : List Char → Option (List Char × List Char)
  | [] => none
  | c :: rest =>
    if c = '"' then some ([], rest)
    else if c = '\\' then
      match rest with
      | [] => none
      | e :: rest2 =>
        if e = '"' then consChar '"' (parseStringBody rest2)
        else if e = '\\' then consChar '\\' (parseStringBody rest2)
        else if e = 'b' then consChar '\x08' (parseStringBody rest2)
        else if e = 't' then consChar '\x09' (parseStringBody rest2)
        else if e = 'n' then consChar '\x0a' (parseStringBody rest2)
        else if e = 'f' then consChar '\x0c' (parseStringBody rest2)
        else if e = 'r' then consChar '\x0d' (parseStringBody rest2)
        else if e = 'u' then
          match rest2 with
          | h1 :: h2 :: h3 :: h4 :: rest3 =>
            match hexVal h1, hexVal h2, hexVal h3, hexVal h4 with
            | some a, some b, some c2, some d =>
              consChar (Char.ofNat ((((a * 16 + b) * 16 + c2) * 16) + d)) (parseStringBody rest3)
            | _, _, _, _ => none
          | _ => none
        else none
    else consChar c (parseStringBody rest)

/-- The characters of a JSON boolean. -/
def boolChars (b : Bool) : List Char :=
  if b then ['t', 'r', 'u', 'e'] else ['f', 'a', 'l', 's', 'e']

/-- `JSON.parse` of a boolean at the head of the input. -/
def parseBool : List Char → Option (Bool × List Char)
  | 't' :: 'r' :: 'u' :: 'e' :: rest => some (true, rest)
  | 'f' :: 'a' :: 'l' :: 's' :: 'e' :: rest => some (false, rest)
  | _ => none

/-- Consume an expected literal chunk of the document skeleton. -/
def expectLit : List Char → List Char → Option (List Char)
  | [], l => some l
  | _ :: _, [] => none
  | c :: cs, d :: ds => if c = d then expectLit cs ds else none

/-- Skeleton chunk up to and including the opening quote of the `lang`
value (`JSON.stringify(settings, null, 2)` layout). -/
def lit1 : String := "\x7b\n  \"udxSettings\": \x7b\n    \"lang\": \""

/-- Skeleton chunk between the `lang` value and the first boolean. -/
def lit2 : String := ",\n    \"firstTimeJoinOrg\": "

/-- Skeleton chunk before `firstTimeCreateOrg`. -/
def lit3 : String := ",\n    \"firstTimeCreateOrg\": "

/-- Skeleton chunk closing `udxSettings` and opening `appOptions`. -/
def lit4 : String := "\n  \x7d,\n  \"appOptions\": \x7b\n    \"notifications\": "

/-- Skeleton chunk before `soundFx`. -/
def lit5 : String := ",\n    \"soundFx\": "

/-- Skeleton chunk before `streamerMode`. -/
def lit6 : String := ",\n    \"streamerMode\": "

/-- Skeleton chunk before `darkMode`. -/
def lit7 : String := ",\n    \"darkMode\": "

/-- Closing skeleton chunk, including the final newline appended by
`writeJson`. -/
def lit8 : String := "\n  \x7d\n\x7d\n"

/-- The exact file content produced for a settings document by
`writeJson(path, settings, { spaces: 2 })`. -/
def renderSettings (s : AppSettings) : List Char :=
  lit1.data ++ jsonEscape s.udxSettings.lang.data ++ ['"'] ++
  lit2.data ++ boolChars s.udxSettings.firstTimeJoinOrg ++
  lit3.data ++ boolChars s.udxSettings.firstTimeCreateOrg ++
  lit4.data ++ boolChars s.appOptions.notifications ++
  lit5.data ++ boolChars s.appOptions.soundFx ++
  lit6.data ++ boolChars s.appOptions.streamerMode ++
  lit7.data ++ boolChars s.appOptions.darkMode ++
  lit8.data

/-- `readJson` on the settings file: parse the document back into an
`AppSettings` record (restricted to the grammar the writer emits, with the
string and boolean values arbitrary). -/
def parseSettingsDoc (l : List Char) : Option AppSettings := do
  let l1 ← expectLit lit1.data l
  let (lang, l2) ← parseStringBody l1
  let l3 ← expectLit lit2.data l2
  let (joinOrg, l4) ← parseBool l3
  let l5 ← expectLit lit3.data l4
  let (createOrg, l6) ← parseBool l5
  let l7 ← expectLit lit4.data l6
  let (notif, l8) ← parseBool l7
  let l9 ← expectLit lit5.data l8
  let (sfx, l10) ← parseBool l9
  let l11 ← expectLit lit6.data l10
  let (streamer, l12) ← parseBool l11
  let l13 ← expectLit lit7.data l12
  let (dark, l14) ← parseBool l13
  let l15 ← expectLit lit8.data l14
  if l15.isEmpty then
    some { udxSettings := { lang := String.mk lang, firstTimeJoinOrg := joinOrg,
                            firstTimeCreateOrg := createOrg },
           appOptions := { notifications := notif, soundFx := sfx,
                           streamerMode := streamer, darkMode := dark } }
  else none

/-- The pieces of state the settings store touches: the app-data path set by
`initializeAppData`, and the content of the settings file. -/
structure FsState where
  appDataPath : Option String
  settingsFile : Option (List Char)

/-- `getSettingsFilePath`: `null` until the app-data path is set. -/
def getSettingsFilePath (st : FsState) : Option String :=
  st.appDataPath.map (fun p => p ++ "/.uxon-dynamics/uxon-dynamics-options.json")

/-- `saveAppSettings`: throws when the path is unavailable, else writes the
serialized document. -/
def saveAppSettings (s : AppSettings) (st : FsState) : Except String FsState :=
  match getSettingsFilePath st with
  | none => Except.error "Settings file path not available"
  | some _ => Except.ok { st with settingsFile := some (renderSettings s) }

/-- `writeSettings`: wraps and rethrows `saveAppSettings` failures. -/
def writeSettings (s : AppSettings) (st : FsState) : Except String FsState :=
  match saveAppSettings s st with
  | Except.ok st2 => Except.ok st2
  | Except.error e => Except.error ("Failed to write settings: " ++ e)

/-- `loadAppSettings`: throws when the path is unavailable or the file is
missing or unparsable, else returns the parsed document. -/
def loadAppSettings (st : FsState) : Except String AppSettings :=
  match getSettingsFilePath st with
  | none => Except.error "Settings file path not available"
  | some _ =>
    match st.settingsFile with
    | none => Except.error "Failed to load application settings"
    | some content =>
      match parseSettingsDoc content with
      | some s => Except.ok s
      | none => Except.error "Failed to load application settings"

/-- `readSettings`: wraps and rethrows `loadAppSettings` failures. -/
def readSettings (st : FsState) : Except String AppSettings :=
  match loadAppSettings st with
  | Except.ok s => Except.ok s
  | Except.error e => Except.error ("Failed to read settings: " ++ e)

end AppData

/-! ## Helper lemmas for the settings-store round trip -/

namespace AppData

/-- `hexVal` is a left inverse of `hexDigit` on nibbles. -/
theorem hexVal_hexDigit : ∀ n : Nat, n < 16 → hexVal (hexDigit n) = some n := by decide

/-- Parsing a boolean after rendering it recovers the boolean. -/
theorem parseBool_boolChars (b : Bool) (rest : List Char) :
    parseBool (boolChars b ++ rest) = some (b, rest) := by
  cases b <;> rfl

/-- Consuming a literal chunk that is present succeeds. -/
theorem expectLit_append (lit rest : List Char) : expectLit lit (lit ++ rest) = some rest := by
  induction lit with
  | nil => rfl
  | cons c cs ih => simp [expectLit, ih]

/-- Consuming a literal chunk that ends the input succeeds with nothing
left. -/
theorem expectLit_self (lit : List Char) : expectLit lit lit = some [] := by
  simpa using expectLit_append lit []

/-- Step: a closing quote ends the string body. -/
theorem psb_close (rest : List Char) : parseStringBody ('"' :: rest) = some ([], rest) := by
  rw [parseStringBody.eq_def]; simp

/-- Step: the `\"` escape. -/
theorem psb_esc_quote (l : List Char) :
    parseStringBody ('\\' :: '"' :: l) = consChar '"' (parseStringBody l) := by
  rw [parseStringBody.eq_def]; simp

/-- Step: the `\\` escape. -/
theorem psb_esc_backslash (l : List Char) :
    parseStringBody ('\\' :: '\\' :: l) = consChar '\\' (parseStringBody l) := by
  rw [parseStringBody.eq_def]; simp

/-- Step: the `\b` escape. -/
theorem psb_esc_b (l : List Char) :
    parseStringBody ('\\' :: 'b' :: l) = consChar '\x08' (parseStringBody l) := by
  rw [parseStringBody.eq_def]; simp

/-- Step: the `\t` escape. -/
theorem psb_esc_t (l : List Char) :
    parseStringBody ('\\' :: 't' :: l) = consChar '\x09' (parseStringBody l) := by
  rw [parseStringBody.eq_def]; simp

/-- Step: the `\n` escape. -/
theorem psb_esc_n (l : List Char) :
    parseStringBody ('\\' :: 'n' :: l) = consChar '\x0a' (parseStringBody l) := by
  rw [parseStringBody.eq_def]; simp

/-- Step: the `\f` escape. -/
theorem psb_esc_f (l : List Char) :
    parseStringBody ('\\' :: 'f' :: l) = consChar '\x0c' (parseStringBody l) := by
  rw [parseStringBody.eq_def]; simp

/-- Step: the `\r` escape. -/
theorem psb_esc_r (l : List Char) :
    parseStringBody ('\\' :: 'r' :: l) = consChar '\x0d' (parseStringBody l) := by
  rw [parseStringBody.eq_def]; simp

/-- Step: a `\u00XX` escape with parsable digits. -/
theorem psb_esc_u (a b : Char) (va vb : Nat) (ha : hexVal a = some va) (hb : hexVal b = some vb)
    (l : List Char) :
    parseStringBody ('\\' :: 'u' :: '0' :: '0' :: a :: b :: l) =
      consChar (Char.ofNat ((((0 * 16 + 0) * 16 + va) * 16) + vb)) (parseStringBody l) := by
  have h0 : hexVal '0' = some 0 := by decide
  rw [parseStringBody.eq_def]
  simp [h0, ha, hb]

/-- Step: an unescaped character passes through. -/
theorem psb_other (c : Char) (h1 : ¬c = '"') (h2 : ¬c = '\\') (l : List Char) :
    parseStringBody (c :: l) = consChar c (parseStringBody l) := by
  rw [parseStringBody.eq_def]
  simp [h1, h2]

/-- Decoding an escaped string body up to the closing quote recovers the
original characters. -/
theorem parseStringBody_escape (cs rest : List Char) :
    parseStringBody (jsonEscape cs ++ '"' :: rest) = some (cs, rest) := by
  induction cs with
  | nil => simpa [jsonEscape] using psb_close rest
  | cons c cs ih =>
    show parseStringBody ((jsonEscapeChar c ++ jsonEscape cs) ++ '"' :: rest) = _
    rw [List.append_assoc]
    by_cases h1 : c = '"'
    · subst h1; simp [jsonEscapeChar, psb_esc_quote, consChar, ih]
    by_cases h2 : c = '\\'
    · subst h2; simp [jsonEscapeChar, psb_esc_backslash, consChar, ih]
    by_cases h3 : c = '\x08'
    · subst h3; simp [jsonEscapeChar, psb_esc_b, consChar, ih]
    by_cases h4 : c = '\x09'
    · subst h4; simp [jsonEscapeChar, psb_esc_t, consChar, ih]
    by_cases h5 : c = '\x0a'
    · subst h5; simp [jsonEscapeChar, psb_esc_n, consChar, ih]
    by_cases h6 : c = '\x0c'
    · subst h6; simp [jsonEscapeChar, psb_esc_f, consChar, ih]
    by_cases h7 : c = '\x0d'
    · subst h7; simp [jsonEscapeChar, psb_esc_r, consChar, ih]
    by_cases h8 : c.toNat < 32
    · have hd : c.toNat / 16 < 16 := by omega
      have hm : c.toNat % 16 < 16 := by omega
      have key : (((0 * 16 + 0) * 16 + c.toNat / 16) * 16) + c.toNat % 16 = c.toNat := by
        omega
      simp only [jsonEscapeChar, if_neg h1, if_neg h2, if_neg h3, if_neg h4, if_neg h5,
        if_neg h6, if_neg h7, if_pos h8, List.cons_append, List.nil_append]
      rw [psb_esc_u _ _ _ _ (hexVal_hexDigit _ hd) (hexVal_hexDigit _ hm), key,
        Char.ofNat_toNat]
      simp [consChar, ih]
    · simp only [jsonEscapeChar, if_neg h1, if_neg h2, if_neg h3, if_neg h4, if_neg h5,
        if_neg h6, if_neg h7, if_neg h8, List.cons_append, List.nil_append]
      rw [psb_other c h1 h2]
      simp [consChar, ih]

/-- Reduction of an `Option` bind on a present value. -/
theorem optBind_some {A B : Type} (a : A) (f : A → Option B) :
    (do let x ← some a; f x) = f a := rfl

set_option maxHeartbeats 1000000 in
/-- Round trip: parsing the rendered settings file recovers the document. -/
theorem parseSettingsDoc_renderSettings (s : AppSettings) :
    parseSettingsDoc (renderSettings s) = some s := by
  unfold renderSettings parseSettingsDoc
  simp only [List.append_assoc, List.cons_append, List.singleton_append]
  rw [expectLit_append]; simp only [optBind_some, List.nil_append]
  rw [parseStringBody_escape]; simp only [optBind_some, List.nil_append]
  rw [expectLit_append]; simp only [optBind_some, List.nil_append]
  rw [parseBool_boolChars]; simp only [optBind_some, List.nil_append]
  rw [expectLit_append]; simp only [optBind_some, List.nil_append]
  rw [parseBool_boolChars]; simp only [optBind_some, List.nil_append]
  rw [expectLit_append]; simp only [optBind_some, List.nil_append]
  rw [parseBool_boolChars]; simp only [optBind_some, List.nil_append]
  rw [expectLit_append]; simp only [optBind_some, List.nil_append]
  rw [parseBool_boolChars]; simp only [optBind_some, List.nil_append]
  rw [expectLit_append]; simp only [optBind_some, List.nil_append]
  rw [parseBool_boolChars]; simp only [optBind_some, List.nil_append]
  rw [expectLit_append]; simp only [optBind_some, List.nil_append]
  rw [parseBool_boolChars]; simp only [optBind_some, List.nil_append]
  rw [expectLit_self]; simp only [optBind_some, List.nil_append]
  rfl

end AppData

/-! ## Window-registry claims -/

namespace WindowManager

/-- C5: Every window-registry mutator (`closeWindow`, `minimizeWindow`,
`maximizeWindow`, `restoreWindow`, `focusWindow`, `showWindow`,
`hideWindow`, `refreshWindowContent`) never throws for any identifier: it
returns `Except.ok` in every case, with value `false` exactly when the
identifier matches no registered window or the underlying native window
operation errors; only `createWindow` signals failure by raising an error
to its caller (and on success returns the new id with the metadata
appended to the registry). -/
theorem C5_mutators_never_throw :
    (∀ (reg : Registry) (fails : Bool) (ident : String),
      closeWindow reg fails ident =
          Except.ok ((getWindowMetadata reg ident).isSome && !fails)
      ∧ minimizeWindow reg fails ident =
          Except.ok ((getWindowMetadata reg ident).isSome && !fails)
      ∧ maximizeWindow reg fails ident =
          Except.ok ((getWindowMetadata reg ident).isSome && !fails)
      ∧ restoreWindow reg fails ident =
          Except.ok ((getWindowMetadata reg ident).isSome && !fails)
      ∧ focusWindow reg fails ident =
          Except.ok ((getWindowMetadata reg ident).isSome && !fails)
      ∧ showWindow reg fails ident =
          Except.ok ((getWindowMetadata reg ident).isSome && !fails)
      ∧ hideWindow reg fails ident =
          Except.ok ((getWindowMetadata reg ident).isSome && !fails)
      ∧ refreshWindowContent reg fails ident =
          Except.ok ((getWindowMetadata reg ident).isSome && !fails))
    ∧ (∀ (reg : Registry) (meta : WinMeta),
        createWindow reg false meta = Except.error "Failed to create window: load failed"
        ∧ createWindow reg true meta = Except.ok (meta.id, reg ++ [meta])) := by
  constructor
  · intro reg fails ident
    refine ⟨?_, ?_, ?_, ?_, ?_, ?_, ?_, ?_⟩ <;>
      rcases h : getWindowMetadata reg ident with _ | m <;> cases fails <;>
        first
          | rfl
          | simp [closeWindow, closeWindowBody, minimizeWindow, minimizeWindowBody,
              maximizeWindow, maximizeWindowBody, restoreWindow, restoreWindowBody,
              focusWindow, focusWindowBody, showWindow, showWindowBody,
              hideWindow, hideWindowBody, refreshWindowContent, refreshWindowContentBody,
              catchReturnFalse, nativeCall, h]
  · intro reg meta
    exact ⟨rfl, rfl⟩

/-- `WinType.str` is injective. -/
theorem winTypeStr_inj {a b : WinType} (h : a.str = b.str) : a = b := by
  cases a <;> cases b <;> simp [WinType.str] at h ⊢

/-- In a registry with pairwise-distinct ids, `find?` by id returns the
member carrying that id. -/
theorem find_by_id_unique (reg : Registry) (ident : String) (m : WinMeta)
    (huniq : List.Pairwise (fun a b => a.id ≠ b.id) reg)
    (hmem : m ∈ reg) (hid : m.id = ident) :
    reg.find? (fun x => x.id == ident) = some m := by
  induction reg with
  | nil => cases hmem
  | cons a tail ih =>
    rw [List.mem_cons] at hmem
    rcases hmem with rfl | hmem
    · exact List.find?_cons_of_pos _ (by rw [hid]; simp)
    · have hne : a.id ≠ ident := by
        rw [← hid]
        exact List.rel_of_pairwise_cons huniq hmem
      rw [List.find?_cons_of_neg _ (by simp [hne])]
      exact ih huniq.of_cons hmem

/-- In a registry sorted by creation time, `find?` by type returns a
first-created entry of that type. -/
theorem find_by_type_first (reg : Registry) (t : WinType) (m0 : WinMeta)
    (hsort : List.Pairwise (fun a b => a.createdAt < b.createdAt) reg)
    (hmem : m0 ∈ reg) (ht : m0.wtype = t) :
    ∃ r, reg.find? (fun m => m.wtype.str == WinType.str t) = some r ∧ r.wtype = t ∧
      ∀ m2 ∈ reg, m2.wtype = t → r.createdAt ≤ m2.createdAt := by
  induction reg with
  | nil => cases hmem
  | cons a tail ih =>
    by_cases ha : a.wtype = t
    · refine ⟨a, ?_, ha, ?_⟩
      · exact List.find?_cons_of_pos _ (by rw [ha]; simp)
      · intro m2 hm2 _
        rw [List.mem_cons] at hm2
        rcases hm2 with rfl | hm2
        · exact le_refl _
        · exact le_of_lt (List.rel_of_pairwise_cons hsort hm2)
    · have hm0tail : m0 ∈ tail := by
        rw [List.mem_cons] at hmem
        rcases hmem with rfl | h
        · exact absurd ht ha
        · exact h
      have hfind : ¬a.wtype.str = WinType.str t := fun hcon => ha (winTypeStr_inj hcon)
      obtain ⟨r, hr1, hr2, hr3⟩ := ih hsort.of_cons hm0tail
      refine ⟨r, ?_, hr2, ?_⟩
      · rw [List.find?_cons_of_neg _ (by simp [hfind])]
        exact hr1
      · intro m2 hm2 hm2t
        rw [List.mem_cons] at hm2
        rcases hm2 with rfl | hm2
        · exact absurd hm2t ha
        · exact hr3 m2 hm2 hm2t

/-- C7: `getWindowMetadata` returns the exact window-id match when one
exists (ids being unique in the registry); otherwise, when the identifier
is a window-type string matching at least one registered window (in
particular when two or more share that type), it returns a window of that
type that is first-created (minimal `createdAt`, the registry being in
creation order), always as an `Option` rather than a crash. -/
theorem C7_lookup_policy :
    (∀ (reg : Registry) (ident : String) (m : WinMeta),
      List.Pairwise (fun a b => a.id ≠ b.id) reg → m ∈ reg → m.id = ident →
      getWindowMetadata reg ident = some m)
    ∧ (∀ (reg : Registry) (t : WinType) (m0 : WinMeta),
      List.Pairwise (fun a b => a.createdAt < b.createdAt) reg →
      (∀ m ∈ reg, m.id ≠ WinType.str t) → m0 ∈ reg → m0.wtype = t →
      ∃ r, getWindowMetadata reg (WinType.str t) = some r ∧ r.wtype = t ∧
        ∀ m2 ∈ reg, m2.wtype = t → r.createdAt ≤ m2.createdAt) := by
  constructor
  · intro reg ident m huniq hmem hid
    unfold getWindowMetadata
    rw [find_by_id_unique reg ident m huniq hmem hid]
  · intro reg t m0 hsort hno hmem ht
    have hfnone : reg.find? (fun x => x.id == WinType.str t) = none := by
      rw [List.find?_eq_none]
      intro x hx
      simpa using hno x hx
    obtain ⟨r, hr1, hr2, hr3⟩ := find_by_type_first reg t m0 hsort hmem ht
    refine ⟨r, ?_, hr2, hr3⟩
    unfold getWindowMetadata
    rw [hfnone, hr1]

/-- Witness for C7 on a concrete registry: two windows of type `main`; the
type lookup returns the first-created one, the id lookup the exact match. -/
theorem C7_lookup_policy_witness :
    (let w1 : WinMeta := ⟨"udx-window-1", WinType.main, 1, false, false, false⟩
     let w2 : WinMeta := ⟨"udx-window-2", WinType.main, 2, false, false, false⟩
     (∃ r, getWindowMetadata [w1, w2] "main" = some r ∧ r.wtype = WinType.main ∧
        ∀ m2 ∈ [w1, w2], m2.wtype = WinType.main → r.createdAt ≤ m2.createdAt)
     ∧ getWindowMetadata [w1, w2] "udx-window-2" = some w2) := by
  refine ⟨?_, ?_⟩
  · exact C7_lookup_policy.2 _ WinType.main
      ⟨"udx-window-1", WinType.main, 1, false, false, false⟩
      (by decide) (by decide) (by decide) (by decide)
  · exact C7_lookup_policy.1 _ "udx-window-2"
      ⟨"udx-window-2", WinType.main, 2, false, false, false⟩
      (by decide) (by decide) (by decide)

end WindowManager

/-! ## Protocol-registration claims -/

namespace Protocols

/-- C4: the protocol-registration state never transitions from registered
back to unregistered at runtime.  The only assignment of `false` to
`protocolState.isRegistered` is the reset at the top of
`initializeProtocols`, whose single call site (`src/main/index.ts`) runs
once during startup — before the flag ever becomes true — so the
operations that can run once the flag is set are the read-only accessors,
`handleProtocolUrl`, and the deferred macOS `will-finish-launching`
listener.  Part one: for every sequence of these (non-initializing)
operations from any registered state, the flag stays true.  Part two: the
same for every run that starts with the startup initialization itself,
whenever that initialization ends registered. -/
theorem C4_registered_never_cleared :
    (∀ (ops : List POp) (st : PState),
      (∀ op ∈ ops, op.isInit = false) → st.isRegistered = true →
      (pRun st ops).isRegistered = true)
    ∧ ∀ (env : ProtoEnv) (ops : List POp),
      (∀ op ∈ ops, op.isInit = false) →
      (pStep initialPState (POp.init env)).isRegistered = true →
      (pRun (pStep initialPState (POp.init env)) ops).isRegistered = true := by
  have main : ∀ (ops : List POp) (st : PState),
      (∀ op ∈ ops, op.isInit = false) → st.isRegistered = true →
      (pRun st ops).isRegistered = true := by
    intro ops
    induction ops with
    | nil => intro st _ hst; exact hst
    | cons op ops ih =>
      intro st hops hst
      have hop : op.isInit = false := hops op (List.mem_cons_self op ops)
      have hrest : ∀ o ∈ ops, o.isInit = false :=
        fun o ho => hops o (List.mem_cons_of_mem op ho)
      refine ih (pStep st op) hrest ?_
      cases op with
      | init env => simp [POp.isInit] at hop
      | isReg => exact hst
      | getScheme => exact hst
      | handleUrl u => exact hst
      | fireMacLaunch env =>
        show (fireWillFinishLaunching env st).isRegistered = true
        unfold fireWillFinishLaunching
        split_ifs <;> simp [hst]
  exact ⟨main, fun env ops hops h => main ops _ hops h⟩

/-- Witness for C4: a successful production-mode startup initialization on
macOS followed by a concrete sequence of runtime operations — reads, a
deep-link, and a failing deferred macOS listener firing — keeps the flag
set. -/
theorem C4_registered_never_cleared_witness :
    (pRun (pStep initialPState
        (POp.init { defaultApp := false, argvLen := 2, setDefaultOk := true,
                    isMacOS := true }))
      [POp.isReg, POp.handleUrl "uxondynamics://org/join", POp.getScheme,
       POp.fireMacLaunch { defaultApp := false, argvLen := 2, setDefaultOk := false,
                           isMacOS := true }]).isRegistered = true :=
  C4_registered_never_cleared.2
    { defaultApp := false, argvLen := 2, setDefaultOk := true, isMacOS := true }
    _ (by decide) (by decide)

end Protocols

/-! ## Health-check claims -/

namespace ServerCon

/-- C6: `performHealthChecks` inspects both reachability checks (both always
run; `Promise.all` starts them together) and: continues exactly when both
report healthy; on a failed server check logs `SERVER CHECK FAILED` and
exits with code 1, and symmetrically for the database check (the verdict
log lines presuppose that the other request resolved rather than rejected,
since a rejection lands directly in the catch block); and it exits whenever
either check is not healthy. -/
theorem C6_health_check_gate (srv db : HealthOutcome) :
    ((performHealthChecks srv db).1 = HCResult.continued ↔
      (srv = HealthOutcome.healthy ∧ db = HealthOutcome.healthy))
    ∧ (srv = HealthOutcome.unhealthy → db ≠ HealthOutcome.netError →
        HLog.error "SERVER CHECK FAILED" ∈ (performHealthChecks srv db).2
        ∧ (performHealthChecks srv db).1 = HCResult.exited 1)
    ∧ (db = HealthOutcome.unhealthy → srv ≠ HealthOutcome.netError →
        HLog.error "DATABASE CHECK FAILED" ∈ (performHealthChecks srv db).2
        ∧ (performHealthChecks srv db).1 = HCResult.exited 1)
    ∧ (srv ≠ HealthOutcome.healthy ∨ db ≠ HealthOutcome.healthy →
        (performHealthChecks srv db).1 = HCResult.exited 1) := by
  cases srv <;> cases db <;> decide

/-- Witness for C6 at a concrete failing input: a dead server with a
healthy database logs `SERVER CHECK FAILED` and exits. -/
theorem C6_health_check_gate_witness :
    HLog.error "SERVER CHECK FAILED"
        ∈ (performHealthChecks HealthOutcome.unhealthy HealthOutcome.healthy).2
    ∧ (performHealthChecks HealthOutcome.unhealthy HealthOutcome.healthy).1 =
        HCResult.exited 1 :=
  (C6_health_check_gate HealthOutcome.unhealthy HealthOutcome.healthy).2.1 rfl (by decide)

end ServerCon

/-! ## Renderer language-lookup claim -/

namespace I18n

/-- C10: for every settings document shaped like the store writer's output
(user-preferences section keyed `udx`), `getSavedLanguage` returns the
fallback `"en"` — never the saved language — because its lookup key
`udxSettings` is absent from the document's top level. -/
theorem C10_saved_language_unreachable (lang : String)
    (joinOrg createOrg notif sfx streamer dark : Bool) :
    getSavedLanguage (some (storeWriterDoc lang joinOrg createOrg notif sfx streamer dark))
        = "en"
    ∧ lookupField (storeWriterFields lang joinOrg createOrg notif sfx streamer dark)
        "udxSettings" = none := by
  exact ⟨rfl, rfl⟩

end I18n


/-! ## IPC-handler claims -/

namespace IpcHandlers

/-- C1 counterexample: a non-https URL is dropped with NO warning — the
handler emits only the initial info log, so "dropped after a warning" fails
for the non-https case (the shell call is indeed absent). -/
theorem C1_counterexample :
    openExternalLink { protocol := "http:", href := "http://example.com/" } =
      [Ev.logInfo "IPC open-external-link called [ http://example.com/ ]"]
    ∧ ((openExternalLink { protocol := "http:", href := "http://example.com/" }).all
        (fun e => !e.isWarn)) = true
    ∧ ((openExternalLink { protocol := "http:", href := "http://example.com/" }).all
        (fun e => !e.isShellOpen)) = true := by
  exact ⟨rfl, rfl, rfl⟩

/-- C1 (amended): for every `open-external-link` invocation whose URL is
non-https or whose href carries a control character, `shell.openExternal`
is never called and the handler completes without propagating an error; a
warning is logged exactly in the https-with-control-character case, while
a non-https URL is skipped silently (only the initial info log). -/
theorem C1_amended_rejection (u : UrlArg)
    (h : ¬u.protocol = "https:" ∨ hasUnsafeChars u.href = true) :
    ((openExternalLink u).all (fun e => !e.isShellOpen) = true)
    ∧ (u.protocol = "https:" → hasUnsafeChars u.href = true →
        Ev.logWarn "URL contains unsafe characters, aborting openExternal."
          ∈ openExternalLink u)
    ∧ (¬u.protocol = "https:" →
        openExternalLink u =
          [Ev.logInfo ("IPC open-external-link called [ " ++ u.href ++ " ]")]) := by
  unfold openExternalLink
  by_cases hp : u.protocol = "https:"
  · have hp2 : (u.protocol == "https:") = true := by simp [hp]
    rcases h with h | h
    · exact absurd hp h
    · simp [hp2, hp, h, Ev.isShellOpen, Ev.isWarn]
  · have hp2 : (u.protocol == "https:") = false := by simp [hp]
    simp [hp2, hp, Ev.isShellOpen]

/-- Witness for the amended C1 at a concrete control-character URL: no
shell call, and the warning is logged. -/
theorem C1_amended_rejection_witness :
    ((openExternalLink { protocol := "https:", href := "https://a\x00b" }).all
        (fun e => !e.isShellOpen) = true)
    ∧ Ev.logWarn "URL contains unsafe characters, aborting openExternal."
        ∈ openExternalLink { protocol := "https:", href := "https://a\x00b" } :=
  ⟨(C1_amended_rejection { protocol := "https:", href := "https://a\x00b" }
      (Or.inr (by decide))).1,
   (C1_amended_rejection { protocol := "https:", href := "https://a\x00b" }
      (Or.inr (by decide))).2.1 rfl (by decide)⟩

/-- C9: the `set-auth-token` handler rejects a non-string token, an empty
token, or a token shorter than 10 characters — returning `false` with the
key-value store untouched — and otherwise stores the token under the
auth-token key and returns `true`. -/
theorem C9_set_auth_token (authKey : String) (st : MState) :
    ((setAuthToken authKey TokenArg.nonString st).1 = false
      ∧ (setAuthToken authKey TokenArg.nonString st).2.store = st.store)
    ∧ ∀ s : String,
        if s.length < 10 then
          (setAuthToken authKey (TokenArg.strArg s) st).1 = false
          ∧ (setAuthToken authKey (TokenArg.strArg s) st).2.store = st.store
        else
          (setAuthToken authKey (TokenArg.strArg s) st).1 = true
          ∧ storeGet (setAuthToken authKey (TokenArg.strArg s) st).2.store authKey = some s := by
  constructor
  · exact ⟨rfl, rfl⟩
  · intro s
    by_cases hl : s.length < 10
    · rw [if_pos hl]
      have hcond : (s = "" ∨ s.length < 10) := Or.inr hl
      simp [setAuthToken, hcond]
    · rw [if_neg hl]
      have hcond : ¬(s = "" ∨ s.length < 10) := by
        rintro (rfl | hc)
        · exact hl (by simp)
        · exact hl hc
      simp [setAuthToken, hcond, storeGet, storeSetKV]


/-- `registerIpcHandlers` on a store-initialized state with no handlers
installed yet (the situation of the one startup call): every channel is
registered exactly once, the handler map ends up holding every invoke
channel, and the flag is set — all regardless of the current value of
`ipcHandlersRegistered`, which the function never reads. -/
theorem registerIpcHandlers_fresh (isDev : Bool) (envKey : Option String)
    (authKey : String) (st : MState) (hsh : st.storeHandle = true)
    (hh : st.handlers = []) :
    registerIpcHandlers isDev envKey authKey st =
      (true,
       { st with trace := st.trace ++ [Ev.logInfo "Registering IPC handlers..."]
                   ++ channelNames.map Ev.registerChannel,
                 handlers := invokeChannelNames,
                 ipcHandlersRegistered := true }) := by
  cases st with
  | mk sto reg sh adp ir iq tr hnd =>
    simp only at hsh hh
    subst hsh
    subst hh
    simp [registerIpcHandlers, registerChannels, goRegister, registerOne, channelTable,
      channelNames, invokeChannelNames, autoEraseAuthToken, List.append_assoc]

/-- `registerIpcHandlers` on a state that already has a handler for
`electron-store-get` (the first table entry): the duplicate
`ipcMain.handle` call throws immediately, no channel is registered, the
flag update is skipped, and the outer catch logs the fatal error before
rethrowing the wrapped error to the caller. -/
theorem registerIpcHandlers_duplicate (isDev : Bool) (envKey : Option String)
    (authKey : String) (st : MState) (hsh : st.storeHandle = true)
    (hdup : st.handlers.contains "electron-store-get" = true) :
    registerIpcHandlers isDev envKey authKey st =
      (false,
       { st with trace := st.trace ++ [Ev.logInfo "Registering IPC handlers..."]
                   ++ [Ev.logError ("registerIpcHandlers() - FATAL ERROR: "
                        ++ "Attempted to register a second handler for 'electron-store-get'")] }) := by
  cases st with
  | mk sto reg sh adp ir iq tr hnd =>
    simp only at hsh hdup
    subst hsh
    have hdup2 : "electron-store-get" ∈ hnd := by simpa using hdup
    simp [registerIpcHandlers, registerChannels, goRegister, registerOne, channelTable,
      autoEraseAuthToken, hdup2, List.append_assoc]

/-- Each channel occurs exactly once in one registration pass. -/
theorem countChannelReg_map_one (c : String) (hc : c ∈ channelNames) :
    countChannelReg c (channelNames.map Ev.registerChannel) = 1 := by
  fin_cases hc <;> rfl

/-- C3 counterexample: from the startup state (store ready, no handlers
installed, flag false), the first `registerIpcHandlers` call succeeds and
sets the flag; the second call — the flag now true — is not skipped by any
flag guard: it attempts registration again and aborts with Electron's
duplicate-handler throw, returning failure.  Were the flag a guard, the
second call would return cleanly without attempting registration; instead
it throws, so "that flag guards re-registration" is false of the program
(the registration count stays at one, but through the throw, not the
flag). -/
theorem C3_counterexample :
    (let st0 : MState :=
      { store := [], registry := [], storeHandle := true, appDataPath := none,
        ipcHandlersRegistered := false, isQuitting := false, trace := [], handlers := [] }
     let first := registerIpcHandlers false none "UdxAppAuthToken" st0
     let second := registerIpcHandlers false none "UdxAppAuthToken" first.2
     first.1 = true
     ∧ first.2.ipcHandlersRegistered = true
     ∧ countChannelReg "set-auth-token" first.2.trace = 1
     ∧ second.1 = false
     ∧ countChannelReg "set-auth-token" second.2.trace = 1
     ∧ second.2.ipcHandlersRegistered = true) := by
  exact ⟨rfl, rfl, rfl, rfl, rfl, rfl⟩

/-- C3 (amended): a boolean flag records whether the handlers are
registered — `registerIpcHandlers` sets it to true after registering every
channel — but the function never reads the flag and nothing guards
re-registration through it: starting from a store-ready state with no
handlers, the call behaves identically for either value of the flag,
registering every channel exactly once; a second call nevertheless does
not register any channel a second time, because the first duplicate
`ipcMain.handle` call (`electron-store-get`) throws, aborting the call
with an error and leaving every channel's registration count unchanged. -/
theorem C3_amended_throw_not_flag (isDev : Bool) (envKey : Option String)
    (authKey : String) (st : MState) (b : Bool)
    (hsh : st.storeHandle = true) (hh : st.handlers = []) :
    ((registerIpcHandlers isDev envKey authKey
        { st with ipcHandlersRegistered := b }).1 = true)
    ∧ ((registerIpcHandlers isDev envKey authKey
        { st with ipcHandlersRegistered := b }).2.ipcHandlersRegistered = true)
    ∧ (∀ c ∈ channelNames,
        countChannelReg c
            ((registerIpcHandlers isDev envKey authKey
              { st with ipcHandlersRegistered := b }).2).trace
          = countChannelReg c st.trace + 1)
    ∧ ((registerIpcHandlers isDev envKey authKey
        ((registerIpcHandlers isDev envKey authKey
          { st with ipcHandlersRegistered := b }).2)).1 = false)
    ∧ (∀ c ∈ channelNames,
        countChannelReg c
            ((registerIpcHandlers isDev envKey authKey
              ((registerIpcHandlers isDev envKey authKey
                { st with ipcHandlersRegistered := b }).2)).2).trace
          = countChannelReg c
              ((registerIpcHandlers isDev envKey authKey
                { st with ipcHandlersRegistered := b }).2).trace) := by
  have h1 := registerIpcHandlers_fresh isDev envKey authKey
    { st with ipcHandlersRegistered := b } hsh hh
  have h2 := registerIpcHandlers_duplicate isDev envKey authKey
    ((registerIpcHandlers isDev envKey authKey
      { st with ipcHandlersRegistered := b }).2)
    (by rw [h1]; exact hsh) (by rw [h1]; rfl)
  refine ⟨by rw [h1], by rw [h1], ?_, by rw [h2], ?_⟩
  · intro c hc
    rw [h1]
    have hone := countChannelReg_map_one c hc
    simp only [countChannelReg, List.countP_append] at hone ⊢
    rw [hone]
    rfl
  · intro c hc
    rw [h2]
    simp only [countChannelReg, List.countP_append]
    rfl

/-- Witness for the amended C3 at the concrete startup store-ready state,
with the flag forced to true before the first call (showing the flag's
value is irrelevant), projected at the `set-auth-token` channel. -/
theorem C3_amended_throw_not_flag_witness :
    (let st0 : MState :=
      { store := [], registry := [], storeHandle := true, appDataPath := none,
        ipcHandlersRegistered := false, isQuitting := false, trace := [], handlers := [] }
     let stb : MState := { st0 with ipcHandlersRegistered := true }
     let first := registerIpcHandlers false none "UdxAppAuthToken" stb
     let second := registerIpcHandlers false none "UdxAppAuthToken" first.2
     first.1 = true
     ∧ first.2.ipcHandlersRegistered = true
     ∧ countChannelReg "set-auth-token" first.2.trace
         = countChannelReg "set-auth-token" ([] : List Ev) + 1
     ∧ second.1 = false
     ∧ countChannelReg "set-auth-token" second.2.trace
         = countChannelReg "set-auth-token" first.2.trace) :=
  ⟨(C3_amended_throw_not_flag false none "UdxAppAuthToken" _ true rfl rfl).1,
   (C3_amended_throw_not_flag false none "UdxAppAuthToken" _ true rfl rfl).2.1,
   (C3_amended_throw_not_flag false none "UdxAppAuthToken" _ true rfl rfl).2.2.1
     "set-auth-token" (by decide),
   (C3_amended_throw_not_flag false none "UdxAppAuthToken" _ true rfl rfl).2.2.2.1,
   (C3_amended_throw_not_flag false none "UdxAppAuthToken" _ true rfl rfl).2.2.2.2
     "set-auth-token" (by decide)⟩

/-- Deleting a key from the key-value store removes it: a subsequent `get`
of that key yields nothing. -/
theorem storeGet_storeDeleteKV (k : String) (store : List (String × String)) :
    storeGet (storeDeleteKV k store) k = none := by
  unfold storeGet storeDeleteKV
  induction store with
  | nil => rfl
  | cons p l ih =>
    cases hpk : (p.1 == k) with
    | true => simp [List.filter, hpk, ih]
    | false => simp [List.filter, hpk, List.find?, ih]

/-- The `closeAllWindows` loop over the snapshot of registry ids closes
every window: it empties the registry, appends one `windowClosed` event per
registered window (in registry order), and counts them. -/
theorem closeAllWindowsGo_spec (r : WindowManager.Registry) :
    ∀ (st : MState) (n : Nat), st.registry = r →
      closeAllWindowsGo (r.map (fun m => m.id)) st n =
        (n + r.length,
         { st with registry := [],
                   trace := st.trace ++ r.map (fun m => Ev.windowClosed m.id) }) := by
  induction r with
  | nil =>
    intro st n h
    simp only [List.map_nil, closeAllWindowsGo, List.length_nil, Nat.add_zero,
      List.append_nil]
    rw [← h]
  | cons m tail ih =>
    intro st n h
    have hfind : st.registry.find? (fun x => x.id == m.id) = some m := by
      rw [h]
      exact List.find?_cons_of_pos _ (by simp)
    have hget : WindowManager.getWindowMetadata st.registry m.id = some m := by
      unfold WindowManager.getWindowMetadata
      rw [hfind]
    have herase : st.registry.eraseP (fun x => x.id == m.id) = tail := by
      rw [h]
      exact List.eraseP_cons_of_pos (by simp)
    simp only [List.map_cons, closeAllWindowsGo, closeWindowS, hget, herase, if_true]
    rw [ih { st with registry := tail, trace := st.trace ++ [Ev.windowClosed m.id] } (n + 1) rfl]
    simp only [Prod.mk.injEq, List.length_cons, MState.mk.injEq, List.append_assoc,
      List.singleton_append, List.cons_append, List.nil_append]
    exact ⟨by omega, trivial⟩

/-- C2: the `clear-auth-token` handler returns `true` and, in this order,
deletes the auth-token key from the key-value store (a later `get` finds
nothing), closes every registered window (the registry ends empty), resets
the in-memory global state (store handle, app-data path and both flags),
and requests an application relaunch followed by `process exit 0` — the
event trace records exactly this sequence. -/
theorem C2_clear_auth_token (authKey : String) (st : MState) :
    (clearAuthToken authKey st).1 = true
    ∧ storeGet (clearAuthToken authKey st).2.store authKey = none
    ∧ (clearAuthToken authKey st).2.registry = []
    ∧ (clearAuthToken authKey st).2.storeHandle = false
    ∧ (clearAuthToken authKey st).2.appDataPath = none
    ∧ (clearAuthToken authKey st).2.ipcHandlersRegistered = false
    ∧ (clearAuthToken authKey st).2.isQuitting = false
    ∧ (clearAuthToken authKey st).2.trace =
        st.trace ++ [Ev.logInfo "IPC clear-auth-token called", Ev.storeDelete authKey]
          ++ st.registry.map (fun m => Ev.windowClosed m.id)
          ++ [Ev.resetGlobal, Ev.relaunch, Ev.exitApp 0] := by
  cases st with
  | mk sto reg sh adp ir iq tr hnd =>
    unfold clearAuthToken closeAllWindows
    dsimp only
    rw [closeAllWindowsGo_spec reg
      { store := storeDeleteKV authKey sto, registry := reg, storeHandle := sh,
        appDataPath := adp, ipcHandlersRegistered := ir, isQuitting := iq,
        trace := tr ++ [Ev.logInfo "IPC clear-auth-token called"] ++ [Ev.storeDelete authKey],
        handlers := hnd }
      0 rfl]
    simp only [resetGlobalState]
    refine ⟨trivial, storeGet_storeDeleteKV authKey sto, trivial, trivial, trivial, trivial,
      trivial, ?_⟩
    simp [List.append_assoc]

end IpcHandlers


/-! ## Settings-store claim -/

namespace AppData

/-- C8: for every `AppSettings` document, once the app-data path is set (as
`initializeAppData` does at startup), `writeSettings` succeeds and a
following `readSettings` succeeds and returns a document byte-for-byte
equivalent to the one written — the file content is the exact serialization
and parsing recovers every field, including the escaped language string. -/
theorem C8_settings_roundtrip (s : AppSettings) (st : FsState)
    (h : st.appDataPath.isSome = true) :
    ∃ st2, writeSettings s st = Except.ok st2 ∧ readSettings st2 = Except.ok s := by
  obtain ⟨p, hp⟩ := Option.isSome_iff_exists.mp h
  refine ⟨{ st with settingsFile := some (renderSettings s) }, ?_, ?_⟩
  · simp [writeSettings, saveAppSettings, getSettingsFilePath, hp]
  · simp [readSettings, loadAppSettings, getSettingsFilePath, hp,
      parseSettingsDoc_renderSettings]

/-- Witness for C8 at a concrete state and a document whose language string
needs every kind of JSON escape. -/
theorem C8_settings_roundtrip_witness :
    ∃ st2,
      writeSettings
        { udxSettings := { lang := "fr\n\"x\\\x01", firstTimeJoinOrg := false,
                           firstTimeCreateOrg := true },
          appOptions := { notifications := true, soundFx := false,
                          streamerMode := true, darkMode := false } }
        { appDataPath := some "/home/user", settingsFile := none } = Except.ok st2
      ∧ readSettings st2 = Except.ok
        { udxSettings := { lang := "fr\n\"x\\\x01", firstTimeJoinOrg := false,
                           firstTimeCreateOrg := true },
          appOptions := { notifications := true, soundFx := false,
                          streamerMode := true, darkMode := false } } :=
  C8_settings_roundtrip
    { udxSettings := { lang := "fr\n\"x\\\x01", firstTimeJoinOrg := false,
                       firstTimeCreateOrg := true },
      appOptions := { notifications := true, soundFx := false,
                      streamerMode := true, darkMode := false } }
    { appDataPath := some "/home/user", settingsFile := none } rfl

end AppData

end UDX
